import Mathlib

/-!
Verification of the gotradebot supervisor core: the per-subsystem lifecycle
state machine (connection manager), the engine startup sequencer, the engine
shutdown sequencer, and the command-line flag helper. Definitions are shallow
embeddings of the Go source in src/engine, src/log, src/database and the
config package.
-/

set_option maxRecDepth 4000

/-- GoErr models the error values used by the engine package. Sentinel errors
are distinct constructors, mirroring Go package-level sentinel error values
compared by identity. The wrapped constructor models fmt.Errorf with a
trailing percent-w verb, which wraps an inner error under a context string. -/
inductive GoErr where
  | ErrSubSystemAlreadyStarted
  | ErrSubSystemNotStarted
  | ErrNilSubsystem
  | errNilConfig
  | errConnectionCheckerIsNil
  | wrapped (ctx : String) (err : GoErr)
  | other (msg : String)
deriving DecidableEq, Repr

/-- errorsIs models the Go standard library errors.Is: it reports whether
target appears in the unwrap chain of e. -/
def errorsIs (e target : GoErr) : Bool :=
  e == target ||
    match e with
    | .wrapped _ inner => errorsIs inner target
    | _ => false

/-- Checker models the connchecker.Checker prober handle. The connchecker
package is an external collaborator of the engine (its internals are out of
scope for the supervisor core); the engine only stores and shuts down the
handle, so it is represented by an opaque token. -/
structure Checker where
  id : Nat
deriving DecidableEq, Repr

namespace connchecker

/-- Modelled from the spec: DefaultDNSList is an opaque default constant of
the connchecker package (the package is not part of the supervisor core
source); only its identity matters to the defaulting logic. -/
def DefaultDNSList : List String := ["default-dns"]

/-- Modelled from the spec: DefaultDomainList is an opaque default constant
of the connchecker package. -/
def DefaultDomainList : List String := ["default-domain"]

/-- Modelled from the spec: DefaultCheckInterval is an opaque nonzero default
poll interval of the connchecker package, in nanoseconds. -/
def DefaultCheckInterval : Nat := 1000000000

end connchecker

/-- ConnectionMonitorConfig mirrors config.ConnectionMonitorConfig. Nil Go
slices are Option none; time.Duration is a Nat of nanoseconds. -/
structure ConnectionMonitorConfig where
  DNSList : Option (List String)
  PublicDomainList : Option (List String)
  CheckInterval : Nat
deriving DecidableEq, Repr

/-- connectionManager mirrors the engine.connectionManager struct: an int32
started flag driven by atomic compare-and-swap, the prober handle pointer
(none models a nil pointer), and the captured configuration pointer. -/
structure connectionManager where
  started : Int
  conn : Option Checker
  cfg : ConnectionMonitorConfig
deriving DecidableEq, Repr

/-- StartResult packages the outcome of one call to connectionManager.Start:
the receiver state after the call, the returned error value, and whether the
call invoked connchecker.New (used to express construction-exactly-once). -/
structure StartResult where
  state : Option connectionManager
  result : Except GoErr Unit
  calledNew : Bool
deriving Repr

/-- IsRunning mirrors connectionManager.IsRunning: false for a nil receiver,
otherwise an atomic load of the started flag compared with 1. -/
def connectionManager.IsRunning (m : Option connectionManager) : Bool :=
  match m with
  | none => false
  | some s => s.started == 1

/-- applyConnDefaults mirrors the field defaulting performed in
setupConnectionManager: a nil DNS list, nil domain list or zero check
interval is replaced by the connchecker default. -/
def applyConnDefaults (c : ConnectionMonitorConfig) : ConnectionMonitorConfig :=
  let c1 := if c.DNSList.isNone then
    { c with DNSList := some connchecker.DefaultDNSList } else c
  let c2 := if c1.PublicDomainList.isNone then
    { c1 with PublicDomainList := some connchecker.DefaultDomainList } else c1
  if c2.CheckInterval = 0 then
    { c2 with CheckInterval := connchecker.DefaultCheckInterval } else c2

/-- setupConnectionManager mirrors engine.setupConnectionManager: a nil
config yields errNilConfig, otherwise defaults are substituted and a manager
is returned with the started flag clear and no prober constructed. -/
def setupConnectionManager (cfg : Option ConnectionMonitorConfig) :
    Except GoErr connectionManager :=
  match cfg with
  | none => .error .errNilConfig
  | some c => .ok { started := 0, conn := none, cfg := applyConnDefaults c }

/-- Start mirrors connectionManager.Start. The outcome of the external call
connchecker.New is passed in as newRes. A nil receiver returns a wrapped
ErrNilSubsystem. Otherwise a compare-and-swap of the started flag from 0 to 1
guards the body: on CAS failure a wrapped ErrSubSystemAlreadyStarted is
returned with no side effect; on CAS success connchecker.New is called, its
result assigned to the conn field, and on error the started flag is rolled
back to 0 by a second compare-and-swap before the error is returned. -/
def connectionManager.Start (m : Option connectionManager)
    (newRes : Except GoErr Checker) : StartResult :=
  match m with
  | none =>
    { state := none
      result := .error (.wrapped "connection manager" .ErrNilSubsystem)
      calledNew := false }
  | some s =>
    if s.started = 0 then
      match newRes with
      | .error e =>
        { state := some { s with started := 0, conn := none }
          result := .error e
          calledNew := true }
      | .ok c =>
        { state := some { s with started := 1, conn := some c }
          result := .ok ()
          calledNew := true }
    else
      { state := some s
        result := .error (.wrapped "connection manager" .ErrSubSystemAlreadyStarted)
        calledNew := false }

/-- Stop mirrors connectionManager.Stop. A nil receiver returns a wrapped
ErrNilSubsystem; a clear started flag returns a wrapped
ErrSubSystemNotStarted; otherwise a deferred compare-and-swap from 1 to 0
runs on every remaining path, and a nil prober handle yields a wrapped
errConnectionCheckerIsNil while a present handle is shut down. -/
def connectionManager.Stop (m : Option connectionManager) :
    Option connectionManager × Except GoErr Unit :=
  match m with
  | none => (none, .error (.wrapped "connection manager:" .ErrNilSubsystem))
  | some s =>
    if s.started = 0 then
      (some s, .error (.wrapped "connection manager:" .ErrSubSystemNotStarted))
    else
      let after := { s with started := if s.started = 1 then 0 else s.started }
      match s.conn with
      | none =>
        (some after, .error (.wrapped "connection manager:" .errConnectionCheckerIsNil))
      | some _ => (some after, .ok ())

/-- StartEvent records one observable action of the Engine.Start sequencer:
a soft setup failure that is logged, a soft start failure that is logged, a
successful subsystem activation, a background goroutine spawn, or an abort
that makes Engine.Start return. -/
inductive StartEvent where
  | subsysSetupFailedLogged (name : String)
  | subsysStartFailedLogged (name : String)
  | subsysStarted (name : String)
  | goroutineSpawned (name : String)
  | startAborted (name : String)
deriving DecidableEq, Repr

/-- StartAcc is the running state of the Engine.Start sequencer: the events
emitted so far and, once set, the error with which Engine.Start returns
(none while the sequencer is still proceeding, and nil is returned at the
end when it never gets set). -/
structure StartAcc where
  events : List StartEvent
  result : Option GoErr
deriving Repr

/-- startStep folds one sequential block of Engine.Start into the
accumulator: once a block has aborted with an error, no later block runs. -/
def startStep (acc : StartAcc) (blk : List StartEvent × Option GoErr) : StartAcc :=
  match acc.result with
  | some _ => acc
  | none => { events := acc.events ++ blk.1, result := blk.2 }

/-- runStart folds the ordered blocks of Engine.Start from the initial empty
accumulator. -/
def runStart (blocks : List (List StartEvent × Option GoErr)) : StartAcc :=
  blocks.foldl startStep { events := [], result := none }

/-- setupStartBlock is the common shape of a guarded subsystem block in
Engine.Start: skipped when disabled; a setup error is logged and the
sequencer continues; otherwise a start error is logged and the sequencer
continues; neither failure aborts Engine.Start. -/
def setupStartBlock (name : String) (enabled : Bool)
    (setupRes startRes : Except GoErr Unit) : List StartEvent × Option GoErr :=
  if enabled then
    match setupRes with
    | .error _ => ([.subsysSetupFailedLogged name], none)
    | .ok _ =>
      match startRes with
      | .error _ => ([.subsysStartFailedLogged name], none)
      | .ok _ => ([.subsysStarted name], none)
  else ([], none)

/-- startOnlyBlock is the shape of a guarded block that only calls a start
function and logs its error (the dispatcher block). -/
def startOnlyBlock (name : String) (enabled : Bool)
    (startRes : Except GoErr Unit) : List StartEvent × Option GoErr :=
  if enabled then
    match startRes with
    | .error _ => ([.subsysStartFailedLogged name], none)
    | .ok _ => ([.subsysStarted name], none)
  else ([], none)

/-- ntpSetupPart is the tail of the NTP block: setupNTPManager failure is
logged, not fatal. -/
def ntpSetupPart (setupRes : Except GoErr Unit) : List StartEvent × Option GoErr :=
  match setupRes with
  | .error _ => ([.subsysSetupFailedLogged "NTP manager"], none)
  | .ok _ => ([.subsysStarted "NTP manager"], none)

/-- ntpBlock mirrors the EnableNTPClient block of Engine.Start: when the
configured level is 0, a SetNTPCheck error aborts Engine.Start with a
wrapped error; otherwise setupNTPManager runs and its failure is logged. -/
def ntpBlock (enabled : Bool) (level : Int)
    (setCheckRes setupRes : Except GoErr Unit) : List StartEvent × Option GoErr :=
  if enabled then
    if level = 0 then
      match setCheckRes with
      | .error e => ([.startAborted "NTP check"], some (.wrapped "unable to set NTP check:" e))
      | .ok _ => ntpSetupPart setupRes
    else ntpSetupPart setupRes
  else ([], none)

/-- setupExchangesBlock mirrors the unconditional SetupExchanges call: its
error aborts Engine.Start. -/
def setupExchangesBlock (res : Except GoErr Unit) : List StartEvent × Option GoErr :=
  match res with
  | .error e => ([.startAborted "exchanges"], some e)
  | .ok _ => ([.subsysStarted "exchanges"], none)

/-- storageUpdaterBlock mirrors the unconditional currency.RunStorageUpdater
call: its error is logged, not fatal. -/
def storageUpdaterBlock (res : Except GoErr Unit) : List StartEvent × Option GoErr :=
  match res with
  | .error _ => ([.subsysStartFailedLogged "storage updater"], none)
  | .ok _ => ([.subsysStarted "storage updater"], none)

/-- grpcBlock mirrors the EnableGRPC block: it spawns StartRPCServer in a
goroutine and cannot fail. -/
def grpcBlock (enabled : Bool) : List StartEvent × Option GoErr :=
  (if enabled then [.goroutineSpawned "RPC server"] else [], none)

/-- withdrawBlock mirrors the unconditional SetupWithdrawManager call: its
error aborts Engine.Start. -/
def withdrawBlock (res : Except GoErr Unit) : List StartEvent × Option GoErr :=
  match res with
  | .error e => ([.startAborted "withdraw manager"], some e)
  | .ok _ => ([.subsysStarted "withdraw manager"], none)

/-- apiBlock mirrors the deprecated or websocket RPC block: a config path
resolution error aborts Engine.Start; an API server setup error is logged;
otherwise each enabled server is started and its error logged. -/
def apiBlock (enabledDeprecated enabledWebsocket : Bool)
    (getPathRes apiSetupRes restStartRes wsStartRes : Except GoErr Unit) :
    List StartEvent × Option GoErr :=
  if enabledDeprecated || enabledWebsocket then
    match getPathRes with
    | .error e => ([.startAborted "config path"], some e)
    | .ok _ =>
      match apiSetupRes with
      | .error _ => ([.subsysSetupFailedLogged "API server"], none)
      | .ok _ =>
        ((if enabledDeprecated then
            match restStartRes with
            | .error _ => [.subsysStartFailedLogged "REST server"]
            | .ok _ => [.subsysStarted "REST server"]
          else []) ++
         (if enabledWebsocket then
            match wsStartRes with
            | .error _ => [.subsysStartFailedLogged "websocket server"]
            | .ok _ => [.subsysStarted "websocket server"]
          else []), none)
  else ([], none)

/-- depositBlock mirrors the EnableDepositAddressManager block: it spawns a
sync goroutine and cannot fail synchronously. -/
def depositBlock (enabled : Bool) : List StartEvent × Option GoErr :=
  (if enabled then [.goroutineSpawned "deposit address sync"] else [], none)

/-- syncBlock mirrors the EnableExchangeSyncManager block: a setup error is
logged; on success the syncer start runs in a goroutine. -/
def syncBlock (enabled : Bool) (setupRes : Except GoErr Unit) :
    List StartEvent × Option GoErr :=
  if enabled then
    match setupRes with
    | .error _ => ([.subsysSetupFailedLogged "exchange sync manager"], none)
    | .ok _ => ([.goroutineSpawned "exchange sync manager"], none)
  else ([], none)

/-- gctScriptBlock mirrors the EnableGCTScriptManager block: a NewManager
error is logged, and the Start call then runs regardless of it, its error
also logged. -/
def gctScriptBlock (enabled : Bool) (newRes startRes : Except GoErr Unit) :
    List StartEvent × Option GoErr :=
  if enabled then
    ((match newRes with
      | .error _ => [.subsysSetupFailedLogged "gctscript manager"]
      | .ok _ => []) ++
     (match startRes with
      | .error _ => [.subsysStartFailedLogged "gctscript manager"]
      | .ok _ => [.subsysStarted "gctscript manager"]), none)
  else ([], none)

/-- Settings mirrors the fields of engine.Settings consulted by the
Engine.Start and Engine.Stop control flow, plus the configured NTP level. -/
structure Settings where
  EnableDatabaseManager : Bool
  EnableDispatcher : Bool
  EnableConnectivityMonitor : Bool
  EnableNTPClient : Bool
  NTPLevel : Int
  EnableCommsRelayer : Bool
  EnableGRPC : Bool
  EnablePortfolioManager : Bool
  EnableDataHistoryManager : Bool
  EnableDeprecatedRPC : Bool
  EnableWebsocketRPC : Bool
  EnableDepositAddressManager : Bool
  EnableOrderManager : Bool
  EnableExchangeSyncManager : Bool
  EnableEventManager : Bool
  EnableWebsocketRoutine : Bool
  EnableGCTScriptManager : Bool
  EnableCurrencyStateManager : Bool
  EnableDryRun : Bool
deriving DecidableEq, Repr

/-- StartOutcomes carries the outcome of every fallible call Engine.Start
makes into subsystems and collaborators, in source order. The subsystems
themselves are external to the sequencer; only the control flow around these
outcomes is the code under verification. -/
structure StartOutcomes where
  dbSetup : Except GoErr Unit
  dbStart : Except GoErr Unit
  dispatchStart : Except GoErr Unit
  connSetup : Except GoErr Unit
  connStart : Except GoErr Unit
  ntpSetCheck : Except GoErr Unit
  ntpSetup : Except GoErr Unit
  setupExchanges : Except GoErr Unit
  commsSetup : Except GoErr Unit
  commsStart : Except GoErr Unit
  storageUpdater : Except GoErr Unit
  portfolioSetup : Except GoErr Unit
  portfolioStart : Except GoErr Unit
  dataHistorySetup : Except GoErr Unit
  dataHistoryStart : Except GoErr Unit
  withdrawSetup : Except GoErr Unit
  getConfigPath : Except GoErr Unit
  apiSetup : Except GoErr Unit
  restStart : Except GoErr Unit
  websocketStart : Except GoErr Unit
  orderSetup : Except GoErr Unit
  orderStart : Except GoErr Unit
  syncSetup : Except GoErr Unit
  eventSetup : Except GoErr Unit
  eventStart : Except GoErr Unit
  websocketRoutineSetup : Except GoErr Unit
  websocketRoutineStart : Except GoErr Unit
  gctScriptNew : Except GoErr Unit
  gctScriptStart : Except GoErr Unit
  currencyStateSetup : Except GoErr Unit
  currencyStateStart : Except GoErr Unit
deriving Repr

/-- restStartBlocks lists, in source order, every block of Engine.Start
after the database manager block. -/
def restStartBlocks (s : Settings) (o : StartOutcomes) :
    List (List StartEvent × Option GoErr) :=
  [startOnlyBlock "dispatch system" s.EnableDispatcher o.dispatchStart,
   setupStartBlock "connection manager" s.EnableConnectivityMonitor o.connSetup o.connStart,
   ntpBlock s.EnableNTPClient s.NTPLevel o.ntpSetCheck o.ntpSetup,
   setupExchangesBlock o.setupExchanges,
   setupStartBlock "communications manager" s.EnableCommsRelayer o.commsSetup o.commsStart,
   storageUpdaterBlock o.storageUpdater,
   grpcBlock s.EnableGRPC,
   setupStartBlock "portfolio manager" s.EnablePortfolioManager o.portfolioSetup o.portfolioStart,
   setupStartBlock "data history manager" s.EnableDataHistoryManager o.dataHistorySetup o.dataHistoryStart,
   withdrawBlock o.withdrawSetup,
   apiBlock s.EnableDeprecatedRPC s.EnableWebsocketRPC o.getConfigPath o.apiSetup o.restStart o.websocketStart,
   depositBlock s.EnableDepositAddressManager,
   setupStartBlock "order manager" s.EnableOrderManager o.orderSetup o.orderStart,
   syncBlock s.EnableExchangeSyncManager o.syncSetup,
   setupStartBlock "event manager" s.EnableEventManager o.eventSetup o.eventStart,
   setupStartBlock "websocket routine manager" s.EnableWebsocketRoutine o.websocketRoutineSetup o.websocketRoutineStart,
   gctScriptBlock s.EnableGCTScriptManager o.gctScriptNew o.gctScriptStart,
   setupStartBlock "currency state manager" s.EnableCurrencyStateManager o.currencyStateSetup o.currencyStateStart]

/-- startBlocks is the full ordered block list of Engine.Start, beginning
with the database manager block of lines 131 to 141 of engine.go. -/
def startBlocks (s : Settings) (o : StartOutcomes) :
    List (List StartEvent × Option GoErr) :=
  setupStartBlock "database manager" s.EnableDatabaseManager o.dbSetup o.dbStart ::
    restStartBlocks s o

/-- engineStart is the shallow embedding of Engine.Start on a non-nil
receiver: the guarded blocks run in source order, soft failures append a
logged event and continue, and the first abort error becomes the returned
error (result none means Engine.Start returned nil). -/
def engineStart (s : Settings) (o : StartOutcomes) : StartAcc :=
  runStart (startBlocks s o)

/-- StopEvent records one observable action of the Engine.Stop sequencer in
source order: the unconditional portfolio address snapshot query, the
conditional copy of the portfolio back into the configuration, a per
subsystem IsRunning query, a Stop call, a logged Stop error, the currency
storage updater shutdown, the conditional configuration save with its
outcome, the wait on the ServicesWG counter, and the final logger close. -/
inductive StopEvent where
  | snapshotAddresses
  | portfolioCopied
  | queried (name : String) (running : Bool)
  | stopCalled (name : String)
  | stopErrorLogged (name : String)
  | storageShutdown
  | configSaved (ok : Bool)
  | servicesWGWait
  | loggerClosed
deriving DecidableEq, Repr

/-- Modelled from the spec: SubsysView is the engine view of one managed
subsystem whose implementation is outside the supervisor core source. Per
the lifecycle contract, IsRunning is nil-safe (false on a nil handle) and
Stop returns either nil or an error; isNil records whether the engine field
holds a nil handle, running the underlying started state, and stopErr the
error Stop would return if called. -/
structure SubsysView where
  isNil : Bool
  running : Bool
  stopErr : Option GoErr
deriving DecidableEq, Repr

/-- isRunning is the contract query on a subsystem view: false whenever the
handle is nil, the underlying running flag otherwise. -/
def SubsysView.isRunning (v : SubsysView) : Bool := !v.isNil && v.running

/-- stopBlock is the common shape of one teardown step of Engine.Stop: query
IsRunning, call Stop only when it reported true, and log (never escalate) a
Stop error. -/
def stopBlock (name : String) (v : SubsysView) : List StopEvent :=
  if v.isRunning then
    .queried name true :: .stopCalled name ::
      (match v.stopErr with
       | some _ => [.stopErrorLogged name]
       | none => [])
  else
    [.queried name false]

/-- subsTrace concatenates the teardown steps of a list of named subsystem
views in order. -/
def subsTrace (subs : List (String × SubsysView)) : List StopEvent :=
  match subs with
  | [] => []
  | (n, v) :: rest => stopBlock n v ++ subsTrace rest

/-- StopInputs carries everything Engine.Stop consults: the portfolio
address snapshot (nil-safe, empty when the portfolio manager was never set
up), the view of each managed subsystem field in source order, the dry run
flag, and the outcome of the configuration save. -/
structure StopInputs where
  portfolioAddresses : List String
  gctScript : SubsysView
  orderMgr : SubsysView
  eventMgr : SubsysView
  ntpMgr : SubsysView
  commsMgr : SubsysView
  portfolioMgr : SubsysView
  connectionMgr : SubsysView
  apiRest : SubsysView
  apiWebsocket : SubsysView
  dataHistoryMgr : SubsysView
  databaseMgr : SubsysView
  dispatchSys : SubsysView
  websocketRoutineMgr : SubsysView
  currencyStateMgr : SubsysView
  EnableDryRun : Bool
  saveOk : Bool
deriving DecidableEq, Repr

/-- subsList is the fixed teardown order of Engine.Stop, engine.go lines 421
to 492. -/
def subsList (b : StopInputs) : List (String × SubsysView) :=
  [("gctscript manager", b.gctScript),
   ("order manager", b.orderMgr),
   ("event manager", b.eventMgr),
   ("NTP manager", b.ntpMgr),
   ("communications manager", b.commsMgr),
   ("portfolio manager", b.portfolioMgr),
   ("connection manager", b.connectionMgr),
   ("API server REST", b.apiRest),
   ("API server websocket", b.apiWebsocket),
   ("data history manager", b.dataHistoryMgr),
   ("database manager", b.databaseMgr),
   ("dispatch system", b.dispatchSys),
   ("websocket routine manager", b.websocketRoutineMgr),
   ("currency state manager", b.currencyStateMgr)]

/-- stopsPhase is the portion of Engine.Stop before the configuration save:
the unconditional portfolio address snapshot (with the portfolio copied back
into the configuration only when the address list is nonempty), every
subsystem teardown step in order, and the currency storage updater
shutdown. -/
def stopsPhase (b : StopInputs) : List StopEvent :=
  (StopEvent.snapshotAddresses ::
    (if b.portfolioAddresses.isEmpty then [] else [StopEvent.portfolioCopied])) ++
  subsTrace (subsList b) ++ [StopEvent.storageShutdown]

/-- engineStop is the shallow embedding of Engine.Stop, engine.go lines 411
to 512: the teardown phase, then the configuration save unless dry run mode
is enabled (a failed save only being logged), then the wait on ServicesWG,
then closing the logger as the final operation. -/
def engineStop (b : StopInputs) : List StopEvent :=
  stopsPhase b ++
  (if b.EnableDryRun then [] else [StopEvent.configSaved b.saveOk]) ++
  [StopEvent.servicesWGWait, StopEvent.loggerClosed]

/-- FlagSet mirrors engine.FlagSet, a Go map from flag names to whether the
flag was set on the command line; a missing key reads as false. -/
def FlagSet : Type := List (String × Bool)

/-- get models a Go map read with the zero value false for a missing key. -/
def FlagSet.get (f : FlagSet) (key : String) : Bool :=
  (List.lookup key f).getD false

/-- WithBool mirrors FlagSet.WithBool, engine.go lines 521 to 524: the new
value of the pointed-to boolean is computed from whether the flag was set,
the current pointed-to value, and the config value. -/
def FlagSet.WithBool (f : FlagSet) (key : String)
    (flagValue configValue : Bool) : Bool :=
  let isSet := f.get key
  (!isSet && configValue) || (isSet && flagValue)

/-- cmZero is a concrete connection manager in the Stopped state, as
produced by setupConnectionManager. -/
def cmZero : connectionManager :=
  { started := 0, conn := none
    cfg := { DNSList := none, PublicDomainList := none, CheckInterval := 0 } }

/-- chk0 is a concrete prober handle. -/
def chk0 : Checker := { id := 0 }

/-- cmRunningNilConn is a concrete connection manager whose started flag is
set but whose prober handle is nil. -/
def cmRunningNilConn : connectionManager :=
  { started := 1, conn := none
    cfg := { DNSList := none, PublicDomainList := none, CheckInterval := 0 } }

/-- C2: from the Stopped state, the first Start performs the 0 to 1
compare-and-swap, constructs the checker and returns nil; a second
sequential Start returns an error wrapping ErrSubSystemAlreadyStarted, does
not touch the state (in particular the conn field is not reassigned) and
does not construct a checker again. -/
theorem conn_start_twice (s : connectionManager) (h : s.started = 0)
    (c : Checker) (nr2 : Except GoErr Checker) :
    (connectionManager.Start (some s) (.ok c)).result = .ok () ∧
    (connectionManager.Start (some s) (.ok c)).calledNew = true ∧
    (connectionManager.Start (some s) (.ok c)).state =
      some { s with started := 1, conn := some c } ∧
    (connectionManager.Start ((connectionManager.Start (some s) (.ok c)).state) nr2).result =
      .error (.wrapped "connection manager" .ErrSubSystemAlreadyStarted) ∧
    errorsIs (.wrapped "connection manager" .ErrSubSystemAlreadyStarted)
      .ErrSubSystemAlreadyStarted = true ∧
    (connectionManager.Start ((connectionManager.Start (some s) (.ok c)).state) nr2).state =
      (connectionManager.Start (some s) (.ok c)).state ∧
    (connectionManager.Start ((connectionManager.Start (some s) (.ok c)).state) nr2).calledNew =
      false := by
  refine ⟨?_, ?_, ?_, ?_, by decide, ?_, ?_⟩ <;>
    simp [connectionManager.Start, h]

/-- Witness for conn_start_twice at the concrete manager cmZero. -/
theorem conn_start_twice_witness :
    cmZero.started = 0 ∧
    ((connectionManager.Start (some cmZero) (.ok chk0)).result = .ok () ∧
     (connectionManager.Start (some cmZero) (.ok chk0)).calledNew = true ∧
     (connectionManager.Start (some cmZero) (.ok chk0)).state =
       some { cmZero with started := 1, conn := some chk0 } ∧
     (connectionManager.Start ((connectionManager.Start (some cmZero) (.ok chk0)).state)
        (.ok chk0)).result =
       .error (.wrapped "connection manager" .ErrSubSystemAlreadyStarted) ∧
     errorsIs (.wrapped "connection manager" .ErrSubSystemAlreadyStarted)
       .ErrSubSystemAlreadyStarted = true ∧
     (connectionManager.Start ((connectionManager.Start (some cmZero) (.ok chk0)).state)
        (.ok chk0)).state =
       (connectionManager.Start (some cmZero) (.ok chk0)).state ∧
     (connectionManager.Start ((connectionManager.Start (some cmZero) (.ok chk0)).state)
        (.ok chk0)).calledNew = false) :=
  ⟨rfl, conn_start_twice cmZero rfl chk0 (.ok chk0)⟩

/-- C3: when checker construction fails inside Start after the
compare-and-swap claimed the flag, Start returns that error with the flag
rolled back to 0, so IsRunning reports false afterward and a subsequent
Start is not rejected as already started. -/
theorem conn_start_rollback (s : connectionManager) (h : s.started = 0)
    (e : GoErr) (c : Checker) :
    (connectionManager.Start (some s) (.error e)).result = .error e ∧
    (connectionManager.Start (some s) (.error e)).calledNew = true ∧
    (connectionManager.Start (some s) (.error e)).state =
      some { s with started := 0, conn := none } ∧
    connectionManager.IsRunning ((connectionManager.Start (some s) (.error e)).state) =
      false ∧
    (connectionManager.Start ((connectionManager.Start (some s) (.error e)).state)
       (.ok c)).result = .ok () := by
  refine ⟨?_, ?_, ?_, ?_, ?_⟩ <;>
    simp [connectionManager.Start, connectionManager.IsRunning, h]

/-- Witness for conn_start_rollback at the concrete manager cmZero. -/
theorem conn_start_rollback_witness :
    cmZero.started = 0 ∧
    ((connectionManager.Start (some cmZero) (.error (.other "dial failure"))).result =
       .error (.other "dial failure") ∧
     (connectionManager.Start (some cmZero) (.error (.other "dial failure"))).calledNew =
       true ∧
     (connectionManager.Start (some cmZero) (.error (.other "dial failure"))).state =
       some { cmZero with started := 0, conn := none } ∧
     connectionManager.IsRunning
       ((connectionManager.Start (some cmZero) (.error (.other "dial failure"))).state) =
       false ∧
     (connectionManager.Start
        ((connectionManager.Start (some cmZero) (.error (.other "dial failure"))).state)
        (.ok chk0)).result = .ok ()) :=
  ⟨rfl, conn_start_rollback cmZero rfl (.other "dial failure") chk0⟩

/-- C4: on a nil receiver, Start and Stop return errors wrapping
ErrNilSubsystem, IsRunning returns false, and no operation changes any
state or panics (the embedding is a total function returning the receiver
unchanged). -/
theorem conn_nil_receiver (nr : Except GoErr Checker) :
    (connectionManager.Start none nr).state = none ∧
    (connectionManager.Start none nr).calledNew = false ∧
    (connectionManager.Start none nr).result =
      .error (.wrapped "connection manager" .ErrNilSubsystem) ∧
    errorsIs (.wrapped "connection manager" .ErrNilSubsystem) .ErrNilSubsystem = true ∧
    (connectionManager.Stop none).1 = none ∧
    (connectionManager.Stop none).2 =
      .error (.wrapped "connection manager:" .ErrNilSubsystem) ∧
    errorsIs (.wrapped "connection manager:" .ErrNilSubsystem) .ErrNilSubsystem = true ∧
    connectionManager.IsRunning none = false :=
  ⟨rfl, rfl, rfl, by decide, rfl, rfl, by decide, rfl⟩

/-- C7: a manager produced by setupConnectionManager cycles Stopped to
Running to Stopped to Running: Start, Stop and a second Start all return
nil when checker construction succeeds each time. -/
theorem conn_restart_cycle (cfg : ConnectionMonitorConfig) (c1 c2 : Checker) :
    ∃ s0 : connectionManager,
      setupConnectionManager (some cfg) = .ok s0 ∧
      connectionManager.IsRunning (some s0) = false ∧
      (connectionManager.Start (some s0) (.ok c1)).result = .ok () ∧
      connectionManager.IsRunning ((connectionManager.Start (some s0) (.ok c1)).state) =
        true ∧
      (connectionManager.Stop ((connectionManager.Start (some s0) (.ok c1)).state)).2 =
        .ok () ∧
      connectionManager.IsRunning
        ((connectionManager.Stop ((connectionManager.Start (some s0) (.ok c1)).state)).1) =
        false ∧
      (connectionManager.Start
         ((connectionManager.Stop ((connectionManager.Start (some s0) (.ok c1)).state)).1)
         (.ok c2)).result = .ok () ∧
      connectionManager.IsRunning
        ((connectionManager.Start
           ((connectionManager.Stop ((connectionManager.Start (some s0) (.ok c1)).state)).1)
           (.ok c2)).state) = true := by
  refine ⟨_, rfl, ?_, ?_, ?_, ?_, ?_, ?_, ?_⟩ <;>
    simp [connectionManager.Start, connectionManager.Stop, connectionManager.IsRunning]

/-- C8: setupConnectionManager rejects a nil config with errNilConfig; for
any config it substitutes the connchecker defaults for each unset field and
returns a manager that is not running and has constructed no prober. -/
theorem setup_conn_defaults (cfg : ConnectionMonitorConfig) :
    setupConnectionManager none = .error .errNilConfig ∧
    ∃ s : connectionManager,
      setupConnectionManager (some cfg) = .ok s ∧
      s.started = 0 ∧
      s.conn = none ∧
      connectionManager.IsRunning (some s) = false ∧
      s.cfg.DNSList = some (cfg.DNSList.getD connchecker.DefaultDNSList) ∧
      s.cfg.PublicDomainList =
        some (cfg.PublicDomainList.getD connchecker.DefaultDomainList) ∧
      s.cfg.CheckInterval =
        (if cfg.CheckInterval = 0 then connchecker.DefaultCheckInterval
         else cfg.CheckInterval) := by
  refine ⟨rfl, _, rfl, rfl, rfl, rfl, ?_, ?_, ?_⟩ <;>
    obtain ⟨d, p, i⟩ := cfg <;>
    cases d <;> cases p <;> by_cases hi : i = 0 <;>
    simp [applyConnDefaults, hi]

/-- C9: Stop on a manager whose flag says running but whose prober handle is
nil returns the distinct errConnectionCheckerIsNil error (wrapping neither
NotStarted nor NilSubsystem), yet the deferred compare-and-swap still clears
the flag, so IsRunning is false afterward and a repeated Stop reports
ErrSubSystemNotStarted. -/
theorem conn_stop_checker_nil (s : connectionManager) (h1 : s.started = 1)
    (h2 : s.conn = none) :
    (connectionManager.Stop (some s)).2 =
      .error (.wrapped "connection manager:" .errConnectionCheckerIsNil) ∧
    errorsIs (.wrapped "connection manager:" .errConnectionCheckerIsNil)
      .errConnectionCheckerIsNil = true ∧
    errorsIs (.wrapped "connection manager:" .errConnectionCheckerIsNil)
      .ErrSubSystemNotStarted = false ∧
    errorsIs (.wrapped "connection manager:" .errConnectionCheckerIsNil)
      .ErrNilSubsystem = false ∧
    (connectionManager.Stop (some s)).1 = some { s with started := 0 } ∧
    connectionManager.IsRunning ((connectionManager.Stop (some s)).1) = false ∧
    (connectionManager.Stop ((connectionManager.Stop (some s)).1)).2 =
      .error (.wrapped "connection manager:" .ErrSubSystemNotStarted) ∧
    errorsIs (.wrapped "connection manager:" .ErrSubSystemNotStarted)
      .ErrSubSystemNotStarted = true := by
  refine ⟨?_, by decide, by decide, by decide, ?_, ?_, ?_, by decide⟩ <;>
    simp [connectionManager.Stop, connectionManager.IsRunning, h1, h2]

/-- Witness for conn_stop_checker_nil at the concrete manager
cmRunningNilConn. -/
theorem conn_stop_checker_nil_witness :
    cmRunningNilConn.started = 1 ∧ cmRunningNilConn.conn = none ∧
    ((connectionManager.Stop (some cmRunningNilConn)).2 =
       .error (.wrapped "connection manager:" .errConnectionCheckerIsNil) ∧
     errorsIs (.wrapped "connection manager:" .errConnectionCheckerIsNil)
       .errConnectionCheckerIsNil = true ∧
     errorsIs (.wrapped "connection manager:" .errConnectionCheckerIsNil)
       .ErrSubSystemNotStarted = false ∧
     errorsIs (.wrapped "connection manager:" .errConnectionCheckerIsNil)
       .ErrNilSubsystem = false ∧
     (connectionManager.Stop (some cmRunningNilConn)).1 =
       some { cmRunningNilConn with started := 0 } ∧
     connectionManager.IsRunning ((connectionManager.Stop (some cmRunningNilConn)).1) =
       false ∧
     (connectionManager.Stop ((connectionManager.Stop (some cmRunningNilConn)).1)).2 =
       .error (.wrapped "connection manager:" .ErrSubSystemNotStarted) ∧
     errorsIs (.wrapped "connection manager:" .ErrSubSystemNotStarted)
       .ErrSubSystemNotStarted = true) :=
  ⟨rfl, rfl, conn_stop_checker_nil cmRunningNilConn rfl rfl⟩

/-- C10: WithBool leaves the pointed-to value unchanged when the flag was
set on the command line and falls back to the config value otherwise. -/
theorem flagset_withbool_precedence (f : FlagSet) (key : String)
    (flagValue configValue : Bool) :
    FlagSet.WithBool f key flagValue configValue =
      if FlagSet.get f key then flagValue else configValue := by
  unfold FlagSet.WithBool
  cases h : FlagSet.get f key <;> simp [h]

/-- Folding the remaining blocks never lets the events accumulated so far
influence the final result. -/
theorem foldl_startStep_result_indep (bs : List (List StartEvent × Option GoErr))
    (ev ev' : List StartEvent) (r : Option GoErr) :
    (bs.foldl startStep { events := ev, result := r }).result =
      (bs.foldl startStep { events := ev', result := r }).result := by
  induction bs generalizing ev ev' r with
  | nil => rfl
  | cons b bs ih =>
    cases r with
    | some e =>
      rw [List.foldl_cons, List.foldl_cons]
      exact ih ev ev' (some e)
    | none =>
      rw [List.foldl_cons, List.foldl_cons]
      exact ih (ev ++ b.1) (ev' ++ b.1) b.2

/-- Folding blocks only ever appends to the accumulated events. -/
theorem foldl_startStep_events_mono (bs : List (List StartEvent × Option GoErr))
    (ev : List StartEvent) (r : Option GoErr) :
    ∃ t, (bs.foldl startStep { events := ev, result := r }).events = ev ++ t := by
  induction bs generalizing ev r with
  | nil => exact ⟨[], (List.append_nil ev).symm⟩
  | cons b bs ih =>
    cases r with
    | some e =>
      rw [List.foldl_cons]
      exact ih ev (some e)
    | none =>
      rw [List.foldl_cons]
      have hstep : startStep { events := ev, result := none } b =
          { events := ev ++ b.1, result := b.2 } := rfl
      rw [hstep]
      obtain ⟨t, ht⟩ := ih (ev ++ b.1) b.2
      exact ⟨b.1 ++ t, by rw [ht, List.append_assoc]⟩

/-- When two leading blocks both decline to abort, the final result of the
sequencer does not depend on which of the two ran. -/
theorem runStart_cons_result_indep (b b' : List StartEvent × Option GoErr)
    (bs : List (List StartEvent × Option GoErr))
    (hb : b.2 = none) (hb' : b'.2 = none) :
    (runStart (b :: bs)).result = (runStart (b' :: bs)).result := by
  unfold runStart
  rw [List.foldl_cons, List.foldl_cons]
  have h1 : startStep { events := [], result := none } b =
      { events := b.1, result := b.2 } := by
    simp [startStep]
  have h2 : startStep { events := [], result := none } b' =
      { events := b'.1, result := b'.2 } := by
    simp [startStep]
  rw [h1, h2, hb, hb']
  exact foldl_startStep_result_indep bs b.1 b'.1 none

/-- The events of the first block are a prefix of the whole trace. -/
theorem runStart_cons_events (b : List StartEvent × Option GoErr)
    (bs : List (List StartEvent × Option GoErr)) :
    ∃ t, (runStart (b :: bs)).events = b.1 ++ t := by
  unfold runStart
  rw [List.foldl_cons]
  have h1 : startStep { events := [], result := none } b =
      { events := b.1, result := b.2 } := by
    simp [startStep]
  rw [h1]
  exact foldl_startStep_events_mono bs b.1 b.2

/-- c1Settings enables only the database manager. -/
def c1Settings : Settings :=
  { EnableDatabaseManager := true
    EnableDispatcher := false
    EnableConnectivityMonitor := false
    EnableNTPClient := false
    NTPLevel := 0
    EnableCommsRelayer := false
    EnableGRPC := false
    EnablePortfolioManager := false
    EnableDataHistoryManager := false
    EnableDeprecatedRPC := false
    EnableWebsocketRPC := false
    EnableDepositAddressManager := false
    EnableOrderManager := false
    EnableExchangeSyncManager := false
    EnableEventManager := false
    EnableWebsocketRoutine := false
    EnableGCTScriptManager := false
    EnableCurrencyStateManager := false
    EnableDryRun := false }

/-- allOkOutcomes has every fallible call of Engine.Start succeed. -/
def allOkOutcomes : StartOutcomes :=
  { dbSetup := .ok (), dbStart := .ok (), dispatchStart := .ok ()
    connSetup := .ok (), connStart := .ok (), ntpSetCheck := .ok ()
    ntpSetup := .ok (), setupExchanges := .ok (), commsSetup := .ok ()
    commsStart := .ok (), storageUpdater := .ok (), portfolioSetup := .ok ()
    portfolioStart := .ok (), dataHistorySetup := .ok ()
    dataHistoryStart := .ok (), withdrawSetup := .ok ()
    getConfigPath := .ok (), apiSetup := .ok (), restStart := .ok ()
    websocketStart := .ok (), orderSetup := .ok (), orderStart := .ok ()
    syncSetup := .ok (), eventSetup := .ok (), eventStart := .ok ()
    websocketRoutineSetup := .ok (), websocketRoutineStart := .ok ()
    gctScriptNew := .ok (), gctScriptStart := .ok ()
    currencyStateSetup := .ok (), currencyStateStart := .ok () }

/-- c1Outcomes makes exactly the database manager setup fail. -/
def c1Outcomes : StartOutcomes :=
  { allOkOutcomes with dbSetup := .error (.other "db setup failure") }

/-- C1 counterexample: with the database manager enabled and its setup
failing, Engine.Start does not abort: it logs the failure and returns nil
(result none means a nil error), refuting the claim that the setup error is
returned as a fatal startup failure. -/
theorem engine_start_db_setup_failure_not_fatal_counterexample :
    (engineStart c1Settings c1Outcomes).result = none ∧
    StartEvent.subsysSetupFailedLogged "database manager" ∈
      (engineStart c1Settings c1Outcomes).events := by
  constructor
  · rfl
  · decide

/-- C1 amended: when the database manager is enabled and its setup fails,
Engine.Start logs the failure, continues, and its returned error is exactly
what the remaining subsystems produce; the database setup failure by itself
never makes Engine.Start return an error. -/
theorem engine_start_db_setup_failure_logged_and_continues
    (s : Settings) (o : StartOutcomes) (e : GoErr)
    (h1 : s.EnableDatabaseManager = true) (h2 : o.dbSetup = .error e) :
    StartEvent.subsysSetupFailedLogged "database manager" ∈
      (engineStart s o).events ∧
    (engineStart s o).result =
      (engineStart s { o with dbSetup := .ok (), dbStart := .ok () }).result := by
  have hblk : setupStartBlock "database manager" s.EnableDatabaseManager
      o.dbSetup o.dbStart =
      ([.subsysSetupFailedLogged "database manager"], none) := by
    rw [h1, h2]
    rfl
  have hblk2 : setupStartBlock "database manager" s.EnableDatabaseManager
      (Except.ok ()) (Except.ok ()) =
      ([.subsysStarted "database manager"], none) := by
    rw [h1]
    rfl
  constructor
  · have hs : engineStart s o =
        runStart ((([.subsysSetupFailedLogged "database manager"], none) :
          List StartEvent × Option GoErr) :: restStartBlocks s o) := by
      unfold engineStart startBlocks
      rw [hblk]
    rw [hs]
    obtain ⟨t, ht⟩ := runStart_cons_events
      (([.subsysSetupFailedLogged "database manager"], none) :
        List StartEvent × Option GoErr) (restStartBlocks s o)
    rw [ht]
    exact List.mem_append_left t (List.mem_singleton.mpr rfl)
  · have hrest : restStartBlocks s { o with dbSetup := .ok (), dbStart := .ok () } =
        restStartBlocks s o := rfl
    unfold engineStart startBlocks
    rw [hrest, hblk2, hblk]
    exact runStart_cons_result_indep _ _ _ rfl rfl

/-- Witness for the amended C1 theorem at the concrete settings and
outcomes of the counterexample. -/
theorem engine_start_db_setup_failure_logged_and_continues_witness :
    c1Settings.EnableDatabaseManager = true ∧
    c1Outcomes.dbSetup = .error (.other "db setup failure") ∧
    (StartEvent.subsysSetupFailedLogged "database manager" ∈
       (engineStart c1Settings c1Outcomes).events ∧
     (engineStart c1Settings c1Outcomes).result =
       (engineStart c1Settings
         { c1Outcomes with dbSetup := .ok (), dbStart := .ok () }).result) :=
  ⟨rfl, rfl, engine_start_db_setup_failure_logged_and_continues c1Settings c1Outcomes
    (.other "db setup failure") rfl rfl⟩

/-- A stopCalled event arises in a teardown step exactly for that step and
only when the subsystem reported running. -/
theorem stopCalled_mem_stopBlock (n m : String) (v : SubsysView) :
    StopEvent.stopCalled n ∈ stopBlock m v ↔ n = m ∧ v.isRunning = true := by
  unfold stopBlock
  cases h : v.isRunning
  · simp
  · cases herr : v.stopErr <;> simp [herr, eq_comm]

/-- Every teardown step emits the query event for its own subsystem with the
value IsRunning reported. -/
theorem queried_self_mem_stopBlock (n : String) (v : SubsysView) :
    StopEvent.queried n v.isRunning ∈ stopBlock n v := by
  unfold stopBlock
  cases h : v.isRunning <;> simp [h]

/-- A teardown step never emits a configuration save event. -/
theorem configSaved_not_mem_stopBlock (ok : Bool) (m : String) (v : SubsysView) :
    StopEvent.configSaved ok ∉ stopBlock m v := by
  unfold stopBlock
  cases h : v.isRunning
  · simp
  · cases herr : v.stopErr <;> simp [herr]

/-- A stopCalled event appears in the teardown trace exactly when some view
under that name reported running. -/
theorem stopCalled_mem_subsTrace (subs : List (String × SubsysView)) (n : String) :
    StopEvent.stopCalled n ∈ subsTrace subs ↔
      ∃ v, (n, v) ∈ subs ∧ v.isRunning = true := by
  induction subs with
  | nil => simp [subsTrace]
  | cons p rest ih =>
    obtain ⟨m, v⟩ := p
    rw [subsTrace, List.mem_append, stopCalled_mem_stopBlock, ih]
    constructor
    · rintro (⟨rfl, hv⟩ | ⟨w, hw, hrun⟩)
      · exact ⟨v, List.mem_cons_self _ _, hv⟩
      · exact ⟨w, List.mem_cons_of_mem _ hw, hrun⟩
    · rintro ⟨w, hw, hrun⟩
      rcases List.mem_cons.mp hw with heq | hmem
      · obtain ⟨h1, h2⟩ := Prod.mk.injEq .. ▸ congrArg id heq
        exact Or.inl ⟨h1 ▸ rfl, h2 ▸ hrun⟩
      · exact Or.inr ⟨w, hmem, hrun⟩

/-- Every subsystem in the teardown list gets its IsRunning query emitted,
regardless of what any other subsystem did. -/
theorem queried_mem_subsTrace (subs : List (String × SubsysView))
    (n : String) (v : SubsysView) (h : (n, v) ∈ subs) :
    StopEvent.queried n v.isRunning ∈ subsTrace subs := by
  induction subs with
  | nil => cases h
  | cons p rest ih =>
    obtain ⟨m, w⟩ := p
    rw [subsTrace, List.mem_append]
    rcases List.mem_cons.mp h with heq | hmem
    · obtain ⟨h1, h2⟩ := Prod.mk.injEq .. ▸ congrArg id heq
      subst h1
      subst h2
      exact Or.inl (queried_self_mem_stopBlock n v)
    · exact Or.inr (ih hmem)

/-- The teardown trace never contains a configuration save event. -/
theorem configSaved_not_mem_subsTrace (subs : List (String × SubsysView)) (ok : Bool) :
    StopEvent.configSaved ok ∉ subsTrace subs := by
  induction subs with
  | nil => simp [subsTrace]
  | cons p rest ih =>
    obtain ⟨m, v⟩ := p
    rw [subsTrace, List.mem_append]
    rintro (h | h)
    · exact configSaved_not_mem_stopBlock ok m v h
    · exact ih h

/-- A stopCalled event occurs in Engine.Stop exactly when it occurs in the
subsystem teardown trace: the snapshot, storage shutdown, save, wait and
logger close steps contribute no stopCalled event. -/
theorem stopCalled_mem_engineStop (b : StopInputs) (n : String) :
    StopEvent.stopCalled n ∈ engineStop b ↔
      StopEvent.stopCalled n ∈ subsTrace (subsList b) := by
  unfold engineStop stopsPhase
  cases hemp : b.portfolioAddresses.isEmpty <;>
    cases hdry : b.EnableDryRun <;>
    simp [List.mem_append]

/-- C5: Engine.Stop snapshots the portfolio addresses first, queries every
managed subsystem through IsRunning, calls Stop exactly on those that
reported running, keeps going past every individual failure (every
subsystem gets its query and the final logger close is always reached),
and a nil subsystem handle reports not running, so it is never stopped and
never faults. -/
theorem engine_stop_best_effort (b : StopInputs) :
    (engineStop b).head? = some StopEvent.snapshotAddresses ∧
    (∀ n, StopEvent.stopCalled n ∈ engineStop b ↔
      ∃ v, (n, v) ∈ subsList b ∧ v.isRunning = true) ∧
    (∀ n v, (n, v) ∈ subsList b →
      StopEvent.queried n v.isRunning ∈ engineStop b) ∧
    (∀ running stopErr,
      SubsysView.isRunning { isNil := true, running := running, stopErr := stopErr } =
        false) ∧
    StopEvent.loggerClosed ∈ engineStop b := by
  refine ⟨rfl, ?_, ?_, ?_, ?_⟩
  · intro n
    rw [stopCalled_mem_engineStop, stopCalled_mem_subsTrace]
  · intro n v h
    unfold engineStop stopsPhase
    have hmem := queried_mem_subsTrace (subsList b) n v h
    simp only [List.append_assoc, List.mem_append]
    exact Or.inr (Or.inl hmem)
  · intro running stopErr
    rfl
  · unfold engineStop
    simp

/-- The teardown phase of Engine.Stop never contains a configuration save
event. -/
theorem configSaved_not_mem_stopsPhase (b : StopInputs) (ok : Bool) :
    StopEvent.configSaved ok ∉ stopsPhase b := by
  unfold stopsPhase
  cases hemp : b.portfolioAddresses.isEmpty <;>
    simp [List.mem_append, configSaved_not_mem_subsTrace]

/-- C6: after the teardown phase, Engine.Stop saves the configuration
exactly when dry run mode is off (with any save failure merely recorded),
then waits on the ServicesWG counter, and closes the logger as the very
last operation. -/
theorem engine_stop_save_wait_close (b : StopInputs) :
    engineStop b = stopsPhase b ++
      (if b.EnableDryRun then [] else [StopEvent.configSaved b.saveOk]) ++
      [StopEvent.servicesWGWait, StopEvent.loggerClosed] ∧
    (∀ ok, StopEvent.configSaved ok ∉ stopsPhase b) ∧
    ((∃ ok, StopEvent.configSaved ok ∈ engineStop b) ↔ b.EnableDryRun = false) ∧
    (engineStop b).getLast? = some StopEvent.loggerClosed := by
  refine ⟨rfl, ?_, ?_, ?_⟩
  · intro ok
    exact configSaved_not_mem_stopsPhase b ok
  · constructor
    · rintro ⟨ok, h⟩
      simp only [engineStop, List.append_assoc, List.mem_append] at h
      rcases h with h | h | h
      · exact absurd h (configSaved_not_mem_stopsPhase b ok)
      · cases hb : b.EnableDryRun
        · rfl
        · rw [hb] at h
          simp at h
      · simp at h
    · intro hdry
      refine ⟨b.saveOk, ?_⟩
      simp only [engineStop, List.append_assoc, List.mem_append, hdry]
      simp
  · have hsplit : engineStop b =
        (stopsPhase b ++
          (if b.EnableDryRun then [] else [StopEvent.configSaved b.saveOk]) ++
          [StopEvent.servicesWGWait]) ++ [StopEvent.loggerClosed] := by
      unfold engineStop
      simp [List.append_assoc]
    rw [hsplit, List.getLast?_concat]
